import Mathlib

/-!
Shallow embedding of the token-server repository (src/main.py and
src/aws_secret_util.py).

The HTTP framework, the AWS Secrets Manager client, the JSON string codec
of the standard library and the JWT signing primitive are external
collaborators; they appear as explicit inputs (a fetch result, an
environment lookup, a signing function) or as structured values (a token is
the record of everything the code feeds to the signer; serialized metadata
is the JSON tree the code builds with `json.dumps`).  Everything the
repository itself computes is translated line by line below.
-/

namespace TokenServer

/-- HTTP error raised by the handlers, mirroring
`fastapi.HTTPException(status_code=..., detail=...)`. -/
structure HTTPException where
  status_code : Nat
  detail : String
  deriving DecidableEq, Repr

/-- Message of a Python `str(HTTPException)` as produced by Starlette:
`f"{status_code}: {detail}"`.  Used by the `except Exception` wrap in
`get_token` (src/main.py line 172). -/
def HTTPException.toMessage (e : HTTPException) : String :=
  toString e.status_code ++ ": " ++ e.detail

/-- Error raised by src/aws_secret_util.py (`SecretsManagerError`),
carrying its message string. -/
structure SecretsManagerError where
  message : String
  deriving DecidableEq, Repr

/-- Runtime configuration assembled at module load of src/main.py:
the four module-level globals `MEDIA_SERVER_URL`, `MEDIA_SERVER_API_KEY`,
`MEDIA_SERVER_API_SECRET` (each `Option String` because `os.getenv` can
return `None` on the fallback path) and `SECRET_KEYS` (already split into a
list). -/
structure RuntimeConfig where
  MEDIA_SERVER_URL : Option String
  MEDIA_SERVER_API_KEY : Option String
  MEDIA_SERVER_API_SECRET : Option String
  SECRET_KEYS : List String
  deriving DecidableEq, Repr

/-- Python truthiness of an optional string: `None` and `""` are falsy,
every other string is truthy.  Used by `all([...])` in src/main.py line 130
and by the `if SECRET_KEYS_ENV` test on line 68. -/
def truthyStr : Option String → Bool
  | none => false
  | some s => !(s = "")

/-- Python `s.split(",")` on a list of characters: splitting an empty
string yields `[""]`, i.e. one empty field. -/
def splitCommaChars : List Char → List (List Char)
  | [] => [[]]
  | c :: rest =>
    let r := splitCommaChars rest
    if c = ',' then [] :: r
    else
      match r with
      | [] => [[c]]
      | h :: t => (c :: h) :: t

/-- Python `s.split(",")` (src/main.py lines 55 and 68). -/
def pySplitComma (s : String) : List String :=
  (splitCommaChars s.data).map (fun cs => String.mk cs)

/-- Python slicing `s[:n]` (src/main.py line 137, `uuid.uuid4().hex[:6]`). -/
def pyTake (s : String) (n : Nat) : String :=
  String.mk (s.data.take n)

/-- First index of `key` in the list, mirroring Python `list.index` on
src/main.py line 117; meaningful only when `key` is a member. -/
def idxOfFirst : List String → String → Nat
  | [], _ => 0
  | k :: rest, key => if k = key then 0 else idxOfFirst rest key + 1

/-- Embedding of `get_api_key` (src/main.py lines 107-123): the `X-API-Key`
header is `none` when absent; a missing or unrecognized key raises a 403,
a recognized key yields `SECRET_KEYS.index(key) + 1`. -/
def get_api_key (api_key_header : Option String) (secret_keys : List String) :
    Except HTTPException Nat :=
  match api_key_header with
  | none => .error ⟨403, "API key is missing in the request header"⟩
  | some key =>
    if key ∈ secret_keys then .ok (idxOfFirst secret_keys key + 1)
    else .error ⟨403, "Invalid API key"⟩

/-! ### Configuration bootstrap -/

/-- Lookup in a flat string-keyed mapping (the parsed secret bundle). -/
def lookupStr : List (String × String) → String → Option String
  | [], _ => none
  | (k, v) :: rest, key => if k = key then some v else lookupStr rest key

/-- Required fields of the secret bundle
(src/aws_secret_util.py line 119). -/
def required_keys : List String :=
  ["MEDIA_SERVER_URL", "MEDIA_SERVER_API_KEY", "MEDIA_SERVER_API_SECRET", "SECRET_KEYS"]

/-- Keys of `required_keys` absent from the fetched bundle
(src/aws_secret_util.py line 120). -/
def missingKeys (secret_dict : List (String × String)) : List String :=
  required_keys.filter (fun k => lookupStr secret_dict k = none)

/-- Python `repr` of a list of strings, as interpolated into the error
message on src/aws_secret_util.py line 124. -/
def pyListRepr (xs : List String) : String :=
  "[" ++ String.intercalate ", " (xs.map (fun s => "'" ++ s ++ "'")) ++ "]"

/-- Validated configuration bundle returned by `get_media_server_config`
on success (src/aws_secret_util.py lines 127-132). -/
structure ConfigBundle where
  MEDIA_SERVER_URL : String
  MEDIA_SERVER_API_KEY : String
  MEDIA_SERVER_API_SECRET : String
  SECRET_KEYS : String
  deriving DecidableEq, Repr

/-- Embedding of `get_media_server_config` (src/aws_secret_util.py lines
89-139).  The remote fetch (`get_secret`, an AWS collaborator) is passed in
as its result: either a `SecretsManagerError` or the parsed flat mapping.
On success the four required keys are checked for presence; missing keys
produce a `SecretsManagerError` naming them. -/
def get_media_server_config (secret_name : String)
    (fetched : Except SecretsManagerError (List (String × String))) :
    Except SecretsManagerError ConfigBundle :=
  match fetched with
  | .error e => .error e
  | .ok secret_dict =>
    let missing := missingKeys secret_dict
    if missing = [] then
      .ok ⟨(lookupStr secret_dict "MEDIA_SERVER_URL").getD "",
           (lookupStr secret_dict "MEDIA_SERVER_API_KEY").getD "",
           (lookupStr secret_dict "MEDIA_SERVER_API_SECRET").getD "",
           (lookupStr secret_dict "SECRET_KEYS").getD ""⟩
    else
      .error ⟨"Secret '" ++ secret_name ++ "' is missing required keys: " ++
              pyListRepr missing⟩

/-- Environment-variable fallback of the module-level config load
(src/main.py lines 63-68 and 74-79): the four fields are read from the
process environment once; `SECRET_KEYS` is split on commas when the
variable is truthy and is the empty list when it is unset or empty. -/
def fallbackConfig (env : String → Option String) : RuntimeConfig :=
  { MEDIA_SERVER_URL := env "MEDIA_SERVER_URL"
    MEDIA_SERVER_API_KEY := env "MEDIA_SERVER_API_KEY"
    MEDIA_SERVER_API_SECRET := env "MEDIA_SERVER_API_SECRET"
    SECRET_KEYS :=
      match env "SECRET_KEYS" with
      | none => []
      | some s => if s = "" then [] else pySplitComma s }

/-- Module-level configuration load of src/main.py (lines 44-79): on a
successful, validated remote bundle the four globals come from the bundle
(with `SECRET_KEYS` split on commas unconditionally); on any
`SecretsManagerError` (or other exception) the fallback is read from the
environment, exactly once, with no further validation. -/
def loadConfig (remote : Except SecretsManagerError ConfigBundle)
    (env : String → Option String) : RuntimeConfig :=
  match remote with
  | .ok b =>
    { MEDIA_SERVER_URL := some b.MEDIA_SERVER_URL
      MEDIA_SERVER_API_KEY := some b.MEDIA_SERVER_API_KEY
      MEDIA_SERVER_API_SECRET := some b.MEDIA_SERVER_API_SECRET
      SECRET_KEYS := pySplitComma b.SECRET_KEYS }
  | .error _ => fallbackConfig env

/-- Full bootstrap pipeline: fetch result through validation through the
fallback policy, always yielding a `RuntimeConfig`. -/
def resolveConfig (secret_name : String)
    (fetched : Except SecretsManagerError (List (String × String)))
    (env : String → Option String) : RuntimeConfig :=
  loadConfig (get_media_server_config secret_name fetched) env

/-! ### Token issuance -/

/-- JSON value tree; the `json.dumps`/`json.loads` string codec of the
Python standard library is an external collaborator, so serialized
metadata is carried as the tree it encodes. -/
inductive Json where
  | str : String → Json
  | num : Int → Json
  | obj : List (String × Json) → Json

/-- Lookup of a key in a JSON object body. -/
def lookupJson : List (String × Json) → String → Option Json
  | [], _ => none
  | (k, v) :: rest, key => if k = key then some v else lookupJson rest key

/-- Embedding of the `CustomerInfo` pydantic model (src/main.py lines
90-92). -/
structure CustomerInfo where
  name : String
  email : String
  deriving DecidableEq, Repr

/-- Embedding of the `TokenRequest` pydantic model (src/main.py lines
94-96): `customer` defaults to `None`, `agent_name` defaults to "ivy". -/
structure TokenRequest where
  customer : Option CustomerInfo := none
  agent_name : String := "ivy"
  deriving DecidableEq, Repr

/-- Structured contents of the dispatch metadata built by `get_token`
(src/main.py lines 144-152). -/
structure Metadata where
  agent : String
  user_id : Nat
  customer : Option CustomerInfo
  deriving DecidableEq, Repr

/-- The metadata dict exactly as src/main.py lines 144-152 builds it:
keys "agent" and "user_id" always, key "customer" appended only when the
request supplied one. -/
def encodeMetadata (m : Metadata) : Json :=
  .obj (("agent", .str m.agent) :: ("user_id", .num (Int.ofNat m.user_id)) ::
    (match m.customer with
     | none => []
     | some c => [("customer", .obj [("name", .str c.name), ("email", .str c.email)])]))

/-- Decoder of a customer object from the metadata JSON. -/
def decodeCustomer : Json → Option CustomerInfo
  | .obj fields =>
    match lookupJson fields "name", lookupJson fields "email" with
    | some (.str n), some (.str e) => some ⟨n, e⟩
    | _, _ => none
  | _ => none

/-- Decoder of the dispatch metadata from its JSON form, as a consumer of
the token would read it back. -/
def decodeMetadata : Json → Option Metadata
  | .obj fields =>
    (match lookupJson fields "agent", lookupJson fields "user_id" with
     | some (.str a), some (.num i) =>
       if i < 0 then none
       else
         match lookupJson fields "customer" with
         | none => some ⟨a, i.toNat, none⟩
         | some cj =>
           match decodeCustomer cj with
           | some c => some ⟨a, i.toNat, some c⟩
           | none => none
     | _, _ => none)
  | _ => none

/-- Video grants attached to the token (src/main.py line 157):
`VideoGrants(room_join=True, room=room_name)`; every other room capability
keeps the collaborator's `False` default. -/
structure VideoGrants where
  room_join : Bool := false
  room : String := ""
  room_admin : Bool := false
  room_list : Bool := false
  room_create : Bool := false
  deriving DecidableEq, Repr

/-- One agent-dispatch entry of the room configuration
(src/main.py line 162). -/
structure RoomAgentDispatch where
  agent_name : String
  metadata : Json

/-- Room configuration attached to the token (src/main.py lines 160-164). -/
structure RoomConfiguration where
  agents : List RoomAgentDispatch

/-- Everything src/main.py lines 154-166 feeds to the signing collaborator:
credentials, identity, grants, ttl and room configuration.  `to_jwt` is an
external function from this record to the opaque compact token string. -/
structure AccessToken where
  api_key : String
  api_secret : String
  identity : String
  grants : VideoGrants
  ttl_seconds : Nat
  room_config : RoomConfiguration

/-- Response body of a successful issuance (src/main.py lines 83-87
and 169). -/
structure TokenResponse where
  token : String
  room_name : String
  participant : String
  agent : String
  deriving DecidableEq, Repr

/-- The access token built by src/main.py lines 154-166, as a function of
the config, the validated caller ordinal, the request body and the two
`uuid.uuid4().hex` draws. -/
def buildAccessToken (cfg : RuntimeConfig) (user_id : Nat)
    (request : TokenRequest) (hex1 hex2 : String) : AccessToken :=
  { api_key := cfg.MEDIA_SERVER_API_KEY.getD ""
    api_secret := cfg.MEDIA_SERVER_API_SECRET.getD ""
    identity := "identity-" ++ pyTake hex1 6
    grants := { room_join := true, room := "web-call-" ++ hex2 }
    ttl_seconds := 24 * 60 * 60
    room_config :=
      { agents := [⟨"k-a", encodeMetadata
          ⟨request.agent_name, user_id, request.customer⟩⟩] } }

/-- Body of the `try` block of `get_token` (src/main.py lines 129-169),
before the `except Exception` wrap: the config precondition check, the two
random draws, metadata and token construction, the `print(token)` to
standard output (returned as the output trace) and the response. -/
def get_token_body (cfg : RuntimeConfig) (user_id : Nat)
    (request : TokenRequest) (hex1 hex2 : String)
    (to_jwt : AccessToken → String) :
    Except HTTPException (TokenResponse × List String) :=
  if !(truthyStr cfg.MEDIA_SERVER_URL && truthyStr cfg.MEDIA_SERVER_API_KEY &&
       truthyStr cfg.MEDIA_SERVER_API_SECRET) then
    .error ⟨500, "Server configuration error: Missing Media Server credentials"⟩
  else
    let participant_identity := "identity-" ++ pyTake hex1 6
    let room_name := "web-call-" ++ hex2
    let token := to_jwt (buildAccessToken cfg user_id request hex1 hex2)
    .ok (⟨token, room_name, participant_identity, request.agent_name⟩, [token])

/-- Embedding of `get_token` (src/main.py lines 127-172): the `try` body
with its `except Exception` clause, which re-raises every exception —
including the misconfiguration `HTTPException` — as a 500 whose detail
wraps `str(e)`.  Returns the handler result plus the standard-output
trace. -/
def get_token (cfg : RuntimeConfig) (user_id : Nat) (request : TokenRequest)
    (hex1 hex2 : String) (to_jwt : AccessToken → String) :
    Except HTTPException TokenResponse × List String :=
  match get_token_body cfg user_id request hex1 hex2 to_jwt with
  | .ok (resp, out) => (.ok resp, out)
  | .error e => (.error ⟨500, "Error generating token: " ++ e.toMessage⟩, [])

/-- The `POST /token` route as wired in src/main.py line 126-127: the
`get_api_key` dependency runs on every invocation before the handler body;
its 403 short-circuits the request, otherwise its ordinal is passed to
`get_token` as `user_id`. -/
def token_endpoint (api_key_header : Option String) (request : TokenRequest)
    (cfg : RuntimeConfig) (hex1 hex2 : String)
    (to_jwt : AccessToken → String) :
    Except HTTPException TokenResponse × List String :=
  match get_api_key api_key_header cfg.SECRET_KEYS with
  | .error e => (.error e, [])
  | .ok user_id => get_token cfg user_id request hex1 hex2 to_jwt

/-- Characters of `uuid.uuid4().hex`: lowercase hexadecimal digits. -/
def isHexChar (c : Char) : Bool :=
  c.isDigit || ('a' ≤ c && c ≤ 'f')

/-! ### Helper lemmas -/

/-- Structured metadata round-trips through its JSON encoding. -/
theorem decodeMetadata_encodeMetadata (m : Metadata) :
    decodeMetadata (encodeMetadata m) = some m := by
  obtain ⟨a, u, c⟩ := m
  cases c with
  | none => simp [encodeMetadata, decodeMetadata, lookupJson]
  | some c => simp [encodeMetadata, decodeMetadata, lookupJson, decodeCustomer]

/-- The first-match index: when `key` first occurs at position `i` of the
list, `idxOfFirst` returns `i`. -/
theorem idxOfFirst_eq (keys : List String) (key : String) (i : Nat)
    (hnot : key ∉ keys.take i) (hget : keys[i]? = some key) :
    idxOfFirst keys key = i := by
  induction keys generalizing i with
  | nil => simp at hget
  | cons a rest ih =>
    cases i with
    | zero =>
      simp at hget
      simp [idxOfFirst, hget]
    | succ j =>
      simp at hget hnot
      have hne : a ≠ key := fun h => hnot.1 h.symm
      simp [idxOfFirst, hne, ih j hnot.2 hget]

/-- A key occurring at some position is a member of the list. -/
theorem mem_of_getElem_eq (keys : List String) (key : String) (i : Nat)
    (hget : keys[i]? = some key) : key ∈ keys := by
  induction keys generalizing i with
  | nil => simp at hget
  | cons a rest ih =>
    cases i with
    | zero => simp at hget; simp [hget]
    | succ j => simp at hget; exact List.mem_cons_of_mem a (ih j hget)

end TokenServer

namespace TokenServer

/-- C1: a request whose `X-API-Key` header is absent, or whose key is not
an element of `SECRET_KEYS`, makes the token endpoint answer with a 403
error, an empty standard-output trace, and a result that does not depend
on the signing collaborator at all (no signing is performed); the
`get_api_key` check runs on every invocation of the endpoint. -/
theorem unauthorized_of_invalid_key (api_key_header : Option String)
    (request : TokenRequest) (cfg : RuntimeConfig) (hex1 hex2 : String)
    (to_jwt to_jwt' : AccessToken → String)
    (h : ∀ k, api_key_header = some k → k ∉ cfg.SECRET_KEYS) :
    (∃ e : HTTPException, e.status_code = 403 ∧
      token_endpoint api_key_header request cfg hex1 hex2 to_jwt = (.error e, [])) ∧
    token_endpoint api_key_header request cfg hex1 hex2 to_jwt =
      token_endpoint api_key_header request cfg hex1 hex2 to_jwt' := by
  cases api_key_header with
  | none =>
    exact ⟨⟨⟨403, "API key is missing in the request header"⟩, rfl, rfl⟩, rfl⟩
  | some k =>
    have hk : k ∉ cfg.SECRET_KEYS := h k rfl
    refine ⟨⟨⟨403, "Invalid API key"⟩, rfl, ?_⟩, ?_⟩ <;>
      simp [token_endpoint, get_api_key, hk]

/-- Witness for C1: the concrete key "x" against valid keys ["a", "b"]
is rejected with a 403 and an empty output trace. -/
theorem unauthorized_of_invalid_key_witness :
    ∃ e : HTTPException, e.status_code = 403 ∧
      token_endpoint (some "x") {} ⟨some "u", some "k", some "s", ["a", "b"]⟩
        "0123456789abcdef0123456789abcdef" "fedcba9876543210fedcba9876543210"
        (fun _ => "jwt") = (.error e, []) :=
  (unauthorized_of_invalid_key (some "x") {}
    ⟨some "u", some "k", some "s", ["a", "b"]⟩
    "0123456789abcdef0123456789abcdef" "fedcba9876543210fedcba9876543210"
    (fun _ => "jwt") (fun _ => "jwt2")
    (by intro k hk; cases hk; decide)).1

/-- C2: a caller key whose first occurrence in `SECRET_KEYS` is at index
`i` is validated with ordinal `i + 1`; in particular with keys
["a", "b", "a"] the key "a" yields ordinal 1, not 3. -/
theorem caller_ordinal_first_match (keys : List String) (key : String) (i : Nat)
    (hnot : key ∉ keys.take i) (hget : keys[i]? = some key) :
    get_api_key (some key) keys = .ok (i + 1) ∧
    get_api_key (some "a") ["a", "b", "a"] = .ok 1 := by
  have hmem : key ∈ keys := mem_of_getElem_eq keys key i hget
  constructor
  · simp [get_api_key, hmem, idxOfFirst_eq keys key i hnot hget]
  · rfl

/-- Witness for C2: key "b" occurs first at index 1 of ["a", "b", "a"] and
is validated with ordinal 2. -/
theorem caller_ordinal_first_match_witness :
    get_api_key (some "b") ["a", "b", "a"] = .ok 2 :=
  (caller_ordinal_first_match ["a", "b", "a"] "b" 1 (by decide) (by decide)).1

/-- C3: with a valid caller key but a server URL, API key or API secret
that is empty or absent, the endpoint rejects with status 500 — never
403 — and the detail is the misconfiguration message (wrapped by the
`except Exception` clause of `get_token`, src/main.py lines 170-172),
distinct from the 403 details and from any other issuance failure;
nothing is printed and the result does not depend on the signer. -/
theorem misconfigured_of_degraded_config (key : String) (request : TokenRequest)
    (cfg : RuntimeConfig) (hex1 hex2 : String) (to_jwt : AccessToken → String)
    (hmem : key ∈ cfg.SECRET_KEYS)
    (hdeg : (truthyStr cfg.MEDIA_SERVER_URL && truthyStr cfg.MEDIA_SERVER_API_KEY &&
             truthyStr cfg.MEDIA_SERVER_API_SECRET) = false) :
    ∃ e : HTTPException,
      token_endpoint (some key) request cfg hex1 hex2 to_jwt = (.error e, []) ∧
      e.status_code = 500 ∧ e.status_code ≠ 403 ∧
      e.detail =
        "Error generating token: 500: Server configuration error: Missing Media Server credentials" := by
  refine ⟨⟨500, "Error generating token: 500: Server configuration error: Missing Media Server credentials"⟩,
    ?_, rfl, by decide, rfl⟩
  simp [token_endpoint, get_api_key, hmem, get_token, get_token_body, hdeg,
    HTTPException.toMessage]
  rfl

/-- Witness for C3: valid key "a" with an empty server URL is answered
with the wrapped 500 misconfiguration error. -/
theorem misconfigured_of_degraded_config_witness :
    ∃ e : HTTPException,
      token_endpoint (some "a") {} ⟨some "", some "k", some "s", ["a"]⟩
        "0123456789abcdef0123456789abcdef" "fedcba9876543210fedcba9876543210"
        (fun _ => "jwt") = (.error e, []) ∧
      e.status_code = 500 ∧ e.status_code ≠ 403 ∧
      e.detail =
        "Error generating token: 500: Server configuration error: Missing Media Server credentials" :=
  misconfigured_of_degraded_config "a" {} ⟨some "", some "k", some "s", ["a"]⟩
    "0123456789abcdef0123456789abcdef" "fedcba9876543210fedcba9876543210"
    (fun _ => "jwt") (by decide) (by decide)

/-- C4: the bootstrap never fails past its own boundary — `resolveConfig`
totally returns a `RuntimeConfig` — and on any failure of the remote fetch
or of its validation the result is exactly the environment fallback, read
once; the fallback is accepted without validation, so a fully unset
environment still yields a config, with all fields empty/missing. -/
theorem bootstrap_always_yields_config (secret_name : String)
    (fetched : Except SecretsManagerError (List (String × String)))
    (env : String → Option String) (e : SecretsManagerError)
    (h : get_media_server_config secret_name fetched = .error e) :
    resolveConfig secret_name fetched env = fallbackConfig env ∧
    fallbackConfig (fun _ => none) =
      { MEDIA_SERVER_URL := none, MEDIA_SERVER_API_KEY := none,
        MEDIA_SERVER_API_SECRET := none, SECRET_KEYS := [] } := by
  refine ⟨?_, rfl⟩
  simp [resolveConfig, h, loadConfig]

/-- Witness for C4: a failed remote fetch resolves to the environment
fallback, and the empty environment yields the all-empty config. -/
theorem bootstrap_always_yields_config_witness :
    resolveConfig "s" (.error ⟨"boom"⟩) (fun _ => none) =
      fallbackConfig (fun _ => none) ∧
    fallbackConfig (fun _ => none) =
      { MEDIA_SERVER_URL := none, MEDIA_SERVER_API_KEY := none,
        MEDIA_SERVER_API_SECRET := none, SECRET_KEYS := [] } :=
  bootstrap_always_yields_config "s" (.error ⟨"boom"⟩) (fun _ => none)
    ⟨"boom"⟩ rfl

/-- C5: a successfully fetched bundle lacking any required field makes the
remote tier fail with a `SecretsManagerError` whose message names exactly
the missing fields, and this failure engages the environment fallback; in
particular a bundle without MEDIA_SERVER_API_SECRET has that field named
among the missing keys. -/
theorem remote_validation_names_missing_keys (secret_name : String)
    (secret_dict : List (String × String)) (env : String → Option String)
    (h : missingKeys secret_dict ≠ []) :
    get_media_server_config secret_name (.ok secret_dict) =
      .error ⟨"Secret '" ++ secret_name ++ "' is missing required keys: " ++
              pyListRepr (missingKeys secret_dict)⟩ ∧
    resolveConfig secret_name (.ok secret_dict) env = fallbackConfig env ∧
    (lookupStr secret_dict "MEDIA_SERVER_API_SECRET" = none →
      "MEDIA_SERVER_API_SECRET" ∈ missingKeys secret_dict) := by
  refine ⟨?_, ?_, ?_⟩
  · simp [get_media_server_config, h]
  · simp [resolveConfig, get_media_server_config, h, loadConfig]
  · intro habs
    simp [missingKeys, required_keys, habs]

/-- Witness for C5: a bundle with URL, API key and key list but no
MEDIA_SERVER_API_SECRET fails validation with a message naming it, and the
pipeline falls back to the environment. -/
theorem remote_validation_names_missing_keys_witness :
    get_media_server_config "s"
      (.ok [("MEDIA_SERVER_URL", "u"), ("MEDIA_SERVER_API_KEY", "k"),
            ("SECRET_KEYS", "a,b")]) =
      .error ⟨"Secret '" ++ "s" ++ "' is missing required keys: " ++
              pyListRepr (missingKeys
                [("MEDIA_SERVER_URL", "u"), ("MEDIA_SERVER_API_KEY", "k"),
                 ("SECRET_KEYS", "a,b")])⟩ ∧
    resolveConfig "s"
      (.ok [("MEDIA_SERVER_URL", "u"), ("MEDIA_SERVER_API_KEY", "k"),
            ("SECRET_KEYS", "a,b")]) (fun _ => none) =
      fallbackConfig (fun _ => none) ∧
    (lookupStr [("MEDIA_SERVER_URL", "u"), ("MEDIA_SERVER_API_KEY", "k"),
                ("SECRET_KEYS", "a,b")] "MEDIA_SERVER_API_SECRET" = none →
      "MEDIA_SERVER_API_SECRET" ∈ missingKeys
        [("MEDIA_SERVER_URL", "u"), ("MEDIA_SERVER_API_KEY", "k"),
         ("SECRET_KEYS", "a,b")]) :=
  remote_validation_names_missing_keys "s"
    [("MEDIA_SERVER_URL", "u"), ("MEDIA_SERVER_API_KEY", "k"),
     ("SECRET_KEYS", "a,b")] (fun _ => none) (by decide)

/-- Concrete usable configuration for witnesses of the issuance claims. -/
def sampleConfig : RuntimeConfig :=
  ⟨some "wss://u", some "k", some "s", ["a"]⟩

/-- Concrete first `uuid.uuid4().hex` draw for witnesses. -/
def sampleHex1 : String := "0123456789abcdef0123456789abcdef"

/-- Concrete second `uuid.uuid4().hex` draw for witnesses. -/
def sampleHex2 : String := "fedcba9876543210fedcba9876543210"

/-- Concrete signing collaborator for witnesses. -/
def sampleJwt : AccessToken → String := fun _ => "signed-jwt"

/-- Concrete successful response produced by `get_token` on the sample
inputs. -/
def sampleResponse : TokenResponse :=
  ⟨"signed-jwt", "web-call-" ++ sampleHex2, "identity-" ++ pyTake sampleHex1 6, "ivy"⟩

/-- C6: every token built by a successful issuance has a validity window
of exactly 24 hours (86400 seconds), a join grant scoped to exactly the
room name returned by that same call, and no admin, list or create room
capability. -/
theorem token_scoped_to_generated_room (cfg : RuntimeConfig) (user_id : Nat)
    (request : TokenRequest) (hex1 hex2 : String)
    (to_jwt : AccessToken → String) (resp : TokenResponse) (out : List String)
    (h : get_token cfg user_id request hex1 hex2 to_jwt = (.ok resp, out)) :
    (buildAccessToken cfg user_id request hex1 hex2).ttl_seconds = 24 * 60 * 60 ∧
    (buildAccessToken cfg user_id request hex1 hex2).grants.room_join = true ∧
    (buildAccessToken cfg user_id request hex1 hex2).grants.room = resp.room_name ∧
    (buildAccessToken cfg user_id request hex1 hex2).grants.room_admin = false ∧
    (buildAccessToken cfg user_id request hex1 hex2).grants.room_list = false ∧
    (buildAccessToken cfg user_id request hex1 hex2).grants.room_create = false ∧
    resp.token = to_jwt (buildAccessToken cfg user_id request hex1 hex2) := by
  cases hB : (truthyStr cfg.MEDIA_SERVER_URL && truthyStr cfg.MEDIA_SERVER_API_KEY &&
      truthyStr cfg.MEDIA_SERVER_API_SECRET) with
  | false => simp [get_token, get_token_body, hB] at h
  | true =>
    simp [get_token, get_token_body, hB] at h
    obtain ⟨hresp, -⟩ := h
    subst hresp
    exact ⟨rfl, rfl, rfl, rfl, rfl, rfl, rfl⟩

/-- Witness for C6: the sample issuance succeeds and its token carries the
24-hour ttl and the join-only grant on the generated room. -/
theorem token_scoped_to_generated_room_witness :
    (buildAccessToken sampleConfig 1 {} sampleHex1 sampleHex2).ttl_seconds = 24 * 60 * 60 ∧
    (buildAccessToken sampleConfig 1 {} sampleHex1 sampleHex2).grants.room_join = true ∧
    (buildAccessToken sampleConfig 1 {} sampleHex1 sampleHex2).grants.room =
      sampleResponse.room_name ∧
    (buildAccessToken sampleConfig 1 {} sampleHex1 sampleHex2).grants.room_admin = false ∧
    (buildAccessToken sampleConfig 1 {} sampleHex1 sampleHex2).grants.room_list = false ∧
    (buildAccessToken sampleConfig 1 {} sampleHex1 sampleHex2).grants.room_create = false ∧
    sampleResponse.token = sampleJwt (buildAccessToken sampleConfig 1 {} sampleHex1 sampleHex2) :=
  token_scoped_to_generated_room sampleConfig 1 {} sampleHex1 sampleHex2
    sampleJwt sampleResponse [sampleResponse.token] rfl

/-- C7: for every successful issuance, the token's room configuration has
exactly one agent-dispatch entry, whose metadata decodes back to exactly
the requested agent name, the caller ordinal from validation, and the
optional customer pair; the request's agent name defaults to "ivy" when
unset. -/
theorem metadata_round_trip (cfg : RuntimeConfig) (user_id : Nat)
    (request : TokenRequest) (hex1 hex2 : String)
    (to_jwt : AccessToken → String) (resp : TokenResponse) (out : List String)
    (_h : get_token cfg user_id request hex1 hex2 to_jwt = (.ok resp, out)) :
    (∃ md : Json,
      (buildAccessToken cfg user_id request hex1 hex2).room_config.agents =
        [⟨"k-a", md⟩] ∧
      decodeMetadata md = some ⟨request.agent_name, user_id, request.customer⟩) ∧
    (∀ c : Option CustomerInfo, ({ customer := c } : TokenRequest).agent_name = "ivy") := by
  exact ⟨⟨encodeMetadata ⟨request.agent_name, user_id, request.customer⟩,
    rfl, decodeMetadata_encodeMetadata _⟩, fun _ => rfl⟩

/-- Witness for C7: the sample issuance succeeds and its dispatch metadata
decodes back to agent "ivy", ordinal 1 and no customer. -/
theorem metadata_round_trip_witness :
    (∃ md : Json,
      (buildAccessToken sampleConfig 1 {} sampleHex1 sampleHex2).room_config.agents =
        [⟨"k-a", md⟩] ∧
      decodeMetadata md = some ⟨({} : TokenRequest).agent_name, 1, ({} : TokenRequest).customer⟩) ∧
    (∀ c : Option CustomerInfo, ({ customer := c } : TokenRequest).agent_name = "ivy") :=
  metadata_round_trip sampleConfig 1 {} sampleHex1 sampleHex2
    sampleJwt sampleResponse [sampleResponse.token] rfl

/-- C8: every successful issuance returns a participant identity that is
"identity-" followed by the first 6 characters of the first random hex
draw — a 6-character hexadecimal suffix — and a room name that is
"web-call-" followed by the entire second hex draw; each of the two
values is determined by its own draw. -/
theorem generated_identifiers_shape (cfg : RuntimeConfig) (user_id : Nat)
    (request : TokenRequest) (hex1 hex2 : String)
    (to_jwt : AccessToken → String) (resp : TokenResponse) (out : List String)
    (hlen1 : hex1.length = 32)
    (hhex1 : ∀ c ∈ hex1.data, isHexChar c)
    (hhex2 : ∀ c ∈ hex2.data, isHexChar c)
    (h : get_token cfg user_id request hex1 hex2 to_jwt = (.ok resp, out)) :
    resp.participant = "identity-" ++ pyTake hex1 6 ∧
    (pyTake hex1 6).length = 6 ∧
    (∀ c ∈ (pyTake hex1 6).data, isHexChar c) ∧
    resp.room_name = "web-call-" ++ hex2 ∧
    (∀ c ∈ hex2.data, isHexChar c) := by
  cases hB : (truthyStr cfg.MEDIA_SERVER_URL && truthyStr cfg.MEDIA_SERVER_API_KEY &&
      truthyStr cfg.MEDIA_SERVER_API_SECRET) with
  | false => simp [get_token, get_token_body, hB] at h
  | true =>
    simp [get_token, get_token_body, hB] at h
    obtain ⟨hresp, -⟩ := h
    subst hresp
    refine ⟨rfl, ?_, ?_, rfl, hhex2⟩
    · show (hex1.data.take 6).length = 6
      rw [List.length_take]
      rw [show hex1.data.length = 32 from hlen1]
      decide
    · intro c hc
      exact hhex1 c (List.take_subset 6 hex1.data hc)

/-- Witness for C8: on the sample issuance the participant identity is
"identity-012345" and the room name is "web-call-" followed by the whole
second draw. -/
theorem generated_identifiers_shape_witness :
    sampleResponse.participant = "identity-" ++ pyTake sampleHex1 6 ∧
    (pyTake sampleHex1 6).length = 6 ∧
    (∀ c ∈ (pyTake sampleHex1 6).data, isHexChar c) ∧
    sampleResponse.room_name = "web-call-" ++ sampleHex2 ∧
    (∀ c ∈ sampleHex2.data, isHexChar c) :=
  generated_identifiers_shape sampleConfig 1 {} sampleHex1 sampleHex2
    sampleJwt sampleResponse [sampleResponse.token]
    (by decide) (by decide) (by decide) rfl

/-- C9: the two config tiers split the key list asymmetrically: a
successfully validated remote bundle whose SECRET_KEYS string is empty
yields the one-element key list [""] (Python `"".split(",")`), while the
environment fallback yields the empty key list when the SECRET_KEYS
variable is unset or empty. -/
theorem secret_keys_split_asymmetry (b : ConfigBundle)
    (e : SecretsManagerError) (env env1 env2 : String → Option String)
    (hb : b.SECRET_KEYS = "")
    (h1 : env1 "SECRET_KEYS" = none)
    (h2 : env2 "SECRET_KEYS" = some "") :
    (loadConfig (.ok b) env).SECRET_KEYS = [""] ∧
    (loadConfig (.error e) env1).SECRET_KEYS = [] ∧
    (loadConfig (.error e) env2).SECRET_KEYS = [] := by
  refine ⟨?_, ?_, ?_⟩
  · simp [loadConfig, hb]
    rfl
  · simp [loadConfig, fallbackConfig, h1]
  · simp [loadConfig, fallbackConfig, h2]

/-- Witness for C9: a concrete bundle with empty SECRET_KEYS and concrete
environments with the variable unset or empty. -/
theorem secret_keys_split_asymmetry_witness :
    (loadConfig (.ok ⟨"u", "k", "s", ""⟩) (fun _ => none)).SECRET_KEYS = [""] ∧
    (loadConfig (.error ⟨"boom"⟩) (fun _ => none)).SECRET_KEYS = [] ∧
    (loadConfig (.error ⟨"boom"⟩) (fun _ => some "")).SECRET_KEYS = [] :=
  secret_keys_split_asymmetry ⟨"u", "k", "s", ""⟩ ⟨"boom"⟩
    (fun _ => none) (fun _ => none) (fun _ => some "") rfl rfl rfl

/-- C10: every successful issuance prints exactly the signed token string
to standard output before returning, and that same string is the token
field of the response body. -/
theorem token_printed_to_stdout (cfg : RuntimeConfig) (user_id : Nat)
    (request : TokenRequest) (hex1 hex2 : String)
    (to_jwt : AccessToken → String) (resp : TokenResponse) (out : List String)
    (h : get_token cfg user_id request hex1 hex2 to_jwt = (.ok resp, out)) :
    out = [resp.token] ∧
    resp.token = to_jwt (buildAccessToken cfg user_id request hex1 hex2) := by
  cases hB : (truthyStr cfg.MEDIA_SERVER_URL && truthyStr cfg.MEDIA_SERVER_API_KEY &&
      truthyStr cfg.MEDIA_SERVER_API_SECRET) with
  | false => simp [get_token, get_token_body, hB] at h
  | true =>
    simp [get_token, get_token_body, hB] at h
    obtain ⟨hresp, hout⟩ := h
    subst hresp
    subst hout
    exact ⟨rfl, rfl⟩

/-- Witness for C10: the sample issuance prints exactly its signed token
string, which is also the response's token field. -/
theorem token_printed_to_stdout_witness :
    [sampleResponse.token] = [sampleResponse.token] ∧
    sampleResponse.token = sampleJwt (buildAccessToken sampleConfig 1 {} sampleHex1 sampleHex2) :=
  token_printed_to_stdout sampleConfig 1 {} sampleHex1 sampleHex2
    sampleJwt sampleResponse [sampleResponse.token] rfl

end TokenServer
